import Mathlib

/-!
Verification of the naver-blog.md conversion pipeline: a shallow embedding of
the classifier (`blog/components.py`, `blog/hooks.py`), the renderer
(`markdown/render.py`, `markdown/models.py`), the image resolver
(`markdown/image.py`) and the per-post crawl loop (`crawl.py`), together with
theorems settling the specification's claims about them.

Conventions of the embedding:
- Python exceptions become an explicit `PyExc` value in an `Except` result.
- A BeautifulSoup `Tag` is abstracted by the observations the source code makes
  of it (the text of each selected sub-element, attribute values, ...), one
  field per CSS selection performed by the source.
- Dynamic Python values (which may be a `str` or a `dict`) become `PyVal`.
- Network and filesystem effects become explicit oracle functions
  (`FetchWorld`), and the worker pool's nondeterministic completion order
  becomes an explicit `completion` index list.
-/

namespace NaverBlogMd

mutual

/-- A dynamically typed Python value as it occurs in this code base:
either a `str` or a `dict` with string keys. -/
inductive PyVal where
  | str (s : String)
  | dict (entries : PyDict)

/-- Entries of a Python `dict` with string keys, in insertion order. -/
inductive PyDict where
  | nil
  | cons (key : String) (val : PyVal) (rest : PyDict)

end

mutual

def PyVal.beq : PyVal → PyVal → Bool
  | .str a, .str b => a == b
  | .dict a, .dict b => PyDict.beq a b
  | _, _ => false

def PyDict.beq : PyDict → PyDict → Bool
  | .nil, .nil => true
  | .cons k v r, .cons k' v' r' => k == k' && PyVal.beq v v' && PyDict.beq r r'
  | _, _ => false

end

/-- A raised Python exception, identified by its class and message. -/
inductive PyExc where
  | valueError (msg : String)
  | assertionError (msg : String)
  | osError (msg : String)
  | indexError (msg : String)
  | requestException (msg : String)
  | otherError (cls msg : String)
deriving DecidableEq, Repr

/-- The Python class name of an exception value. -/
def pyExcClassName : PyExc → String
  | .valueError _ => "ValueError"
  | .assertionError _ => "AssertionError"
  | .osError _ => "OSError"
  | .indexError _ => "IndexError"
  | .requestException _ => "RequestException"
  | .otherError cls _ => cls

/-- The default whitespace set of Python `str.strip()` (ASCII part). -/
def isPySpace (c : Char) : Bool :=
  c = ' ' || c = '\t' || c = '\n' || c = '\r' || c = '\x0b' || c = '\x0c'

/-- Python `s.strip()`: drop leading and trailing whitespace. -/
def pyStrip (s : String) : String :=
  String.mk (((s.toList.dropWhile isPySpace).reverse.dropWhile isPySpace).reverse)

/-- Whether `needle` occurs as a contiguous substring of `hay`
(Python `needle in hay`). -/
def charsContain (hay needle : List Char) : Bool :=
  match hay with
  | [] => needle.isEmpty
  | _ :: rest => needle.isPrefixOf hay || charsContain rest needle

/-- String form of `charsContain`. -/
def strContains (hay needle : String) : Bool :=
  charsContain hay.toList needle.toList

/-- CPython `repr` of a `str`, restricted to the escapes this code base can
produce: backslash, quotes, newline, carriage return, tab. -/
def pyReprStrAux (quote : Char) : List Char → List Char
  | [] => []
  | c :: rest =>
    (if c = '\\' then ['\\', '\\']
     else if c = quote then ['\\', quote]
     else if c = '\n' then ['\\', 'n']
     else if c = '\r' then ['\\', 'r']
     else if c = '\t' then ['\\', 't']
     else [c]) ++ pyReprStrAux quote rest

/-- CPython `repr('...')`: single quotes unless the string holds a single
quote and no double quote. -/
def pyReprStr (s : String) : String :=
  let cs := s.toList
  let quote : Char := if cs.contains '\'' && !cs.contains '"' then '"' else '\''
  String.mk (quote :: pyReprStrAux quote cs ++ [quote])

mutual

/-- CPython `repr` of a `PyVal` (`str(dict)` prints the `repr`). -/
def pyRepr : PyVal → String
  | .str s => pyReprStr s
  | .dict es => "\x7b" ++ pyReprDict es ++ "\x7d"

/-- `repr` of the entries of a dict, comma separated. -/
def pyReprDict : PyDict → String
  | .nil => ""
  | .cons k v .nil => pyReprStr k ++ ": " ++ pyRepr v
  | .cons k v (.cons k' v' r) =>
      pyReprStr k ++ ": " ++ pyRepr v ++ ", " ++ pyReprDict (.cons k' v' r)

end

/-- CPython `str()` of a `PyVal`: a `str` is returned as is, a `dict` prints
its `repr`. -/
def pyStr : PyVal → String
  | .str s => s
  | .dict es => pyRepr (.dict es)

/-- Python `d.get(key)` on a dict value. -/
def PyDict.get : PyDict → String → Option PyVal
  | .nil, _ => none
  | .cons k v r, key => if k = key then some v else PyDict.get r key

/-! ## The block model (`markdown/models.py`)

The Python `Block` union of dataclasses becomes one inductive type; an
`ImageBlock` is a record because it occurs both as a block of its own and as
an element of an `ImageGroupBlock`. Per the source, `MaterialBlock.content`
is annotated `str`, but one caller (`hooks.py`, `se-oembed`) passes a dict,
so the field is embedded as the dynamic `PyVal`. -/

/-- `ImageBlock` of `markdown/models.py`: an image source and alt text. -/
structure ImageBlock where
  src : String
  alt : String
deriving DecidableEq, Repr

/-- The `Block` union of `markdown/models.py`. -/
inductive Block where
  | sectionTitle (text : String)
  | paragraph (text : String)
  | image (img : ImageBlock)
  | imageGroup (images : List ImageBlock)
  | quotation (text : String) (cite : String)
  | code (code : String) (language : String)
  | file (filename : String) (fileUrl : String) (extension : String)
  | horizontalLine
  | table (headers : List String) (rows : List (List String))
  | material (content : PyVal)
  | formula (formula : String) (displayMode : Bool)

/-! ## The image resolver (`markdown/image.py`) -/

/-- `_original_image_url`: drop the query string, then rewrite the preview
host token and the video-preview domain to their original counterparts. -/
def originalImageUrl (src : String) : String :=
  (((src.splitOn "?").headD "").replace "postfiles" "blogfiles").replace
    "https://mblogvideo-phinf.pstatic.net/" "https://blogfiles.pstatic.net/"

/-- The value of one hex digit, if `c` is one. -/
def hexDigitVal (c : Char) : Option Nat :=
  if '0' ≤ c ∧ c ≤ '9' then some (c.toNat - '0'.toNat)
  else if 'a' ≤ c ∧ c ≤ 'f' then some (c.toNat - 'a'.toNat + 10)
  else if 'A' ≤ c ∧ c ≤ 'F' then some (c.toNat - 'A'.toNat + 10)
  else none

/-- Modelled from the spec: URL-decoding of the local file name
(`urllib.parse.unquote_plus` of the external standard library, which is not
part of this repository): `+` becomes a space, `%XY` with two hex digits
becomes the character with that code, an invalid escape is left as is. -/
def unquotePlusAux : List Char → List Char
  | [] => []
  | '%' :: a :: b :: rest =>
    match hexDigitVal a, hexDigitVal b with
    | some x, some y => Char.ofNat (16 * x + y) :: unquotePlusAux rest
    | _, _ => '%' :: unquotePlusAux (a :: b :: rest)
  | c :: rest => (if c = '+' then ' ' else c) :: unquotePlusAux rest
termination_by l => l.length
decreasing_by all_goals simp [List.length_cons] <;> omega

/-- Modelled from the spec: `urllib.parse.unquote_plus` on a string. -/
def unquotePlus (s : String) : String :=
  String.mk (unquotePlusAux s.toList)

/-- Python `url.split("/")[-1]`: the last path segment. -/
def lastPathSegment (url : String) : String :=
  (url.splitOn "/").getLastD ""

/-- The network and filesystem oracle seen by `_fetch_image_processor`:
`fetch url` is the downloaded body or a `requests.RequestException` message
(a non-2xx status raised by `raise_for_status` included), `write filename
body` is the outcome of `Path.write_bytes`. -/
structure FetchWorld where
  fetch : String → Except String String
  write : String → String → Except String Unit

/-- `ImageContext` of `markdown/image.py`: the three resolver variants; the
`fetch` variant carries whether `assets_directory.is_dir()` holds, the
`image_src_prefix`, and the effect oracle. -/
inductive ImageContext where
  | default
  | cdn
  | fetch (assetsDirIsDir : Bool) (imageSrcPrefix : String) (world : FetchWorld)

/-- `_fetch_image_processor`: assert the assets directory exists, normalize
the URL, download, write the file named by the decoded last path segment,
and return prefix + filename; any `RequestException` or other exception
inside the `try` is caught and the original `src` is returned. -/
def fetchImageProcessor (assetsDirIsDir : Bool) (imageSrcPrefix : String)
    (world : FetchWorld) (src : String) : Except PyExc String :=
  if !assetsDirIsDir then
    .error (.assertionError "assert context.assets_directory.is_dir()")
  else
    let url := originalImageUrl src
    match world.fetch url with
    | .error _ => .ok src
    | .ok body =>
      let filename := unquotePlus (lastPathSegment url)
      match world.write filename body with
      | .error _ => .ok src
      | .ok _ => .ok (imageSrcPrefix ++ filename)

/-- `use_image_processor`: select the resolver for a context. -/
def useImageProcessor (context : ImageContext) : String → Except PyExc String :=
  match context with
  | .default => fun src => .ok src
  | .cdn => fun src => .ok (originalImageUrl src)
  | .fetch isDir pfx world => fun src => fetchImageProcessor isDir pfx world src

/-! ## The worker pool (`multiprocess/pool.py`)

Modelled from the spec: `multiprocess/pool.py` is not under `src/`; the spec
says "a bounded worker pool of size N (configurable per call) executes
independent units of work in parallel; results are always returned or
assembled in the original submission order regardless of actual completion
order". The nondeterministic completion order is made an explicit list of
indices (any permutation of the submission indices), and the pool's result
collection re-assembles the completed items in submission order. -/

/-- The pool's completed items: each index of `completion` that refers to a
work item yields that item's result, in completion order. -/
def poolCompleted (f : α → β) (xs : List α) : List Nat → List (Nat × β)
  | [] => []
  | i :: rest =>
    match xs[i]? with
    | some x => (i, f x) :: poolCompleted f xs rest
    | none => poolCompleted f xs rest

/-- Modelled from the spec: `use_map n` maps `f` over `xs` on a pool of `n`
workers, the items completing in the order `completion`, and returns the
results assembled back in submission order. -/
def useMap (numWorkers : Nat) (completion : List Nat) (f : α → β)
    (xs : List α) : List β :=
  (List.range xs.length).filterMap
    (fun i => (poolCompleted f xs completion).lookup i)

/-! ## The renderer (`markdown/render.py`) -/

/-- `MarkdownRenderContext` of `markdown/context.py` as observed by
`render.py`: the worker count, and the image context when present
(`_use_image_processor_with_fallback` falls back to `with_default()`, whose
image context is the `default` variant — modelled from the spec, since
`markdown/context.py` is not under `src/`). -/
structure MarkdownRenderContext where
  numWorkers : Nat
  imageContext : Option ImageContext

/-- `_use_image_processor_with_fallback`. -/
def useImageProcessorWithFallback (context : MarkdownRenderContext) :
    String → Except PyExc String :=
  match context.imageContext with
  | none => useImageProcessor .default
  | some ic => useImageProcessor ic

/-- The quotation body: each line of the stripped text prefixed with `"> "`,
joined by newlines. -/
def quoteLinesFmt (text : String) : String :=
  String.intercalate "\n" (((pyStrip text).splitOn "\n").map (fun l => "> " ++ l))

/-- One data row of a Markdown table: pad the row with empty cells up to the
header count, then truncate it to the header count. -/
def paddedRow (headerCount : Nat) (row : List String) : List String :=
  (row ++ List.replicate (headerCount - row.length) "").take headerCount

/-- The full Markdown table: header line, `---` separator line, then one line
per data row. -/
def tableMarkdown (headers : List String) (rows : List (List String)) : String :=
  let headerLine := "| " ++ String.intercalate " | " headers ++ " |"
  let separatorLine :=
    "| " ++ String.intercalate " | " (List.replicate headers.length "---") ++ " |"
  let dataLines := rows.map
    (fun row => "| " ++ String.intercalate " | " (paddedRow headers.length row) ++ " |")
  String.intercalate "\n" (headerLine :: separatorLine :: dataLines) ++ "\n\n"

/-- `_block_as_markdown`: Markdown text of one block; an exception raised by
the image processor propagates. -/
def blockAsMarkdown (block : Block) (context : MarkdownRenderContext) :
    Except PyExc String :=
  let processedImageSrc := useImageProcessorWithFallback context
  match block with
  | .sectionTitle text => .ok ("## " ++ pyStrip text ++ "\n\n")
  | .paragraph text =>
    if text = "" ∨ text = "\n" then .ok ""
    else .ok (pyStrip text ++ "\n\n")
  | .quotation text cite =>
    if text = "" ∧ cite = "" then .ok ""
    else if cite = "" then .ok (quoteLinesFmt text ++ "\n\n")
    else .ok (quoteLinesFmt text ++ "\n>\n> — " ++ cite ++ "\n\n")
  | .code code language =>
    if code = "" then .ok ""
    else if language = "" then .ok ("```\n" ++ pyStrip code ++ "\n```\n\n")
    else .ok ("```" ++ language ++ "\n" ++ pyStrip code ++ "\n```\n\n")
  | .file filename fileUrl _ =>
    if filename = "" ∧ fileUrl = "" then .ok ""
    else .ok ("📎 [" ++ filename ++ "](" ++ fileUrl ++ ")\n\n")
  | .horizontalLine => .ok "---\n\n"
  | .formula formula displayMode =>
    if formula = "" then .ok ""
    else if displayMode then .ok ("$$\n" ++ formula ++ "\n$$\n\n")
    else .ok ("$" ++ formula ++ "$\n\n")
  | .table headers rows =>
    if headers = [] ∧ rows = [] then .ok ""
    else if headers = [] then .ok ""
    else .ok (tableMarkdown headers rows)
  | .material content =>
    match content with
    | .str "" => .ok ""
    | c => .ok ("> [Material] " ++ pyStr c ++ "\n\n")
  | .image img =>
    if img.src = "" then .ok ""
    else
      (processedImageSrc img.src).map
        (fun p => "![" ++ img.alt ++ "](" ++ p ++ ")\n\n")
  | .imageGroup images =>
    if images = [] then .ok ""
    else
      (images.mapM (fun i =>
          (processedImageSrc i.src).map
            (fun p => "![" ++ i.alt ++ "](" ++ p ++ ")"))).map
        (fun parts => String.intercalate " " parts ++ "\n\n")

/-- The front matter dict as observed by `_front_matter_as_yaml`: the
`["image"]["url"]` field when present, and the remaining payload opaque to
the renderer. -/
structure FrontMatter where
  imageUrl : Option String
  rest : List (String × String)

/-- Modelled from the spec: the YAML serialization of the front matter
payload (`yaml.safe_dump` of the external PyYAML library, not part of this
repository): one `key: value` line per entry. -/
def yamlSafeDump (frontMatter : FrontMatter) : String :=
  String.join ((match frontMatter.imageUrl with
    | some u => frontMatter.rest ++ [("image.url", u)]
    | none => frontMatter.rest).map
      (fun (kv : String × String) => kv.1 ++ ": " ++ kv.2 ++ "\n"))

/-- `_front_matter_as_yaml`: pass the image URL through the image processor
when present, then serialize between `---` delimiter lines. -/
def frontMatterAsYaml (frontMatter : FrontMatter)
    (context : MarkdownRenderContext) : Except PyExc String :=
  (match frontMatter.imageUrl with
    | some u =>
      (useImageProcessorWithFallback context u).map
        (fun p => { frontMatter with imageUrl := some p })
    | none => .ok frontMatter).map
    (fun fm => "---\n" ++ yamlSafeDump fm ++ "---\n\n")

/-- `"".join` over the pool's per-block results: concatenation, the first
raised exception propagating. -/
def joinRendered : List (Except PyExc String) → Except PyExc String
  | [] => .ok ""
  | e :: rest => do
    let s ← e
    let t ← joinRendered rest
    return s ++ t

/-- `blocks_as_markdown`: optional front matter first, then the blocks
rendered through the worker pool (completing in the order `completion`), the
whole result stripped with a single trailing newline appended. -/
def blocksAsMarkdown (blocks : List Block) (frontMatter : Option FrontMatter)
    (result : String) (completion : List Nat)
    (context : MarkdownRenderContext) : Except PyExc String := do
  let result ←
    match frontMatter with
    | some fm =>
      if result = "" then frontMatterAsYaml fm context else pure result
    | none => pure result
  let renderedBlocks :=
    useMap context.numWorkers completion (fun b => blockAsMarkdown b context) blocks
  let joined ← joinRendered renderedBlocks
  return pyStrip (result ++ joined) ++ "\n"

/-! ## The classifier (`blog/components.py`)

A markup fragment (a BeautifulSoup `Tag`) is abstracted by the observations
the handlers make of it: one field per CSS selection, holding the selected
element's extracted text (`_text_from_tag`, i.e. `get_text(strip=True)
.strip()`) or attribute value, `none` when `select_one` finds nothing. -/

/-- The `.__se_code_view` element of a code fragment: its class list and its
text. -/
structure CodeView where
  classes : List String
  text : String

/-- One `.se-module-image` of an image strip: its `img` element's `src` (if
any) and its own `.se-caption` text (if any). -/
structure ImageModule where
  imgSrc : Option String
  caption : Option String

/-- One `td.se-cell` of a table: the text of a nested `.se-module-text`
element when present, and the cell's own text. -/
structure TableCell where
  moduleText : Option String
  cellText : String

/-- A markup fragment as observed by the classifier handlers. -/
structure Fragment where
  /-- `component["class"][1]`, the discriminant class name. -/
  className : String
  /-- `_text_from_tag(component)`, the fragment's own text. -/
  text : String
  /-- Texts of the `.se-text-paragraph` elements. -/
  seTextParagraphs : List String
  /-- The `.__se_code_view` element, when present. -/
  codeView : Option CodeView
  /-- Text of the `.se-file-name` element, when present. -/
  seFileName : Option String
  /-- Text of the `.se-file-extension` element, when present. -/
  seFileExtension : Option String
  /-- The `a.se-file-save-button` element with its `href` attribute. -/
  seFileSaveButton : Option (Option String)
  /-- Rows of the `table.se-table-content` element (`tr.se-tr`, each a list
  of `td.se-cell`), when the table element is present. -/
  tableRows : Option (List (List TableCell))
  /-- `src` attributes of the `img` elements (`select("img")`). -/
  imgSrcs : List String
  /-- Text of the `.se-caption` element, when present. -/
  seCaption : Option String
  /-- The `.se-module-image` elements of an image strip. -/
  imageModules : List ImageModule
  /-- Text of the `.se-quote` element, when present. -/
  seQuote : Option String
  /-- Text of the `.se-cite` element, when present. -/
  seCite : Option String
  /-- `src` of the first `img` element (`select_one("img")`), when present. -/
  img : Option String
  /-- `src` of the first `video` element (`select_one("video")`), when
  present. -/
  video : Option String
  /-- `component.get("data", \x7b\x7d)` of an oembed fragment. -/
  oembedData : PyDict
  /-- Modelled from the spec: the formula text consumed by
  `formula_component`, which is not under `src/`. -/
  formulaText : String
  /-- Modelled from the spec: the display flag consumed by
  `formula_component`, which is not under `src/`. -/
  formulaDisplayMode : Bool
  /-- Modelled from the spec: the text consumed by
  `wrapping_paragraph_component`, which is not under `src/`. -/
  wrappingText : String

/-- `section_title_component`. -/
def sectionTitleComponent (component : Fragment) : Block :=
  .sectionTitle component.text

/-- `text_component`: one `ParagraphBlock` per nested paragraph element. -/
def textComponent (component : Fragment) : List Block :=
  component.seTextParagraphs.map (fun t => .paragraph t)

/-- `code_component`: language from a `language-<name>` class token on the
code view element, code from the element's text. -/
def codeComponent (component : Fragment) : Block :=
  match component.codeView with
  | none => .code "" ""
  | some cv =>
    let language :=
      match cv.classes.find? (fun cls => cls.startsWith "language-") with
      | some cls => cls.replace "language-" ""
      | none => ""
    .code cv.text language

/-- `file_component`: the full filename is `name+extension` when both are
non-empty, else the name when non-empty, else `"unknown"`; the URL comes
from the save button's non-empty `href`; the extension field is the
extension without leading dots. -/
def fileComponent (component : Fragment) : Block :=
  let filename := component.seFileName.getD ""
  let extension := component.seFileExtension.getD ""
  let fullFilename :=
    if filename ≠ "" ∧ extension ≠ "" then filename ++ extension
    else if filename ≠ "" then filename
    else "unknown"
  let fileUrl :=
    match component.seFileSaveButton with
    | some (some href) => if href = "" then "" else href
    | _ => ""
  .file fullFilename fileUrl
    (if extension ≠ "" then String.mk (extension.toList.dropWhile (· = '.'))
     else "")

/-- `horizontal_line_component`. -/
def horizontalLineComponent (_component : Fragment) : Block :=
  .horizontalLine

/-- `material_component`: the fragment's text as Material content. -/
def materialComponent (component : Fragment) : Block :=
  .material (.str component.text)

/-- The text extracted from one table cell: the nested text module's text if
present, else the cell's own text. -/
def tableCellText (cell : TableCell) : String :=
  match cell.moduleText with
  | some t => t
  | none => cell.cellText

/-- `table_component`: first row is the header row, remaining rows are data
rows, rows with zero cells are dropped. -/
def tableComponent (component : Fragment) : Block :=
  match component.tableRows with
  | none => .table [] []
  | some [] => .table [] []
  | some (firstRow :: restRows) =>
    let headers := firstRow.map tableCellText
    let rows := (restRows.map (fun r => r.map tableCellText)).filter
      (fun r => !r.isEmpty)
    .table headers rows

/-- `image_group_component`: every `img` element becomes one image, all
sharing the group's caption as alt text. -/
def imageGroupComponent (component : Fragment) : Block :=
  .imageGroup (component.imgSrcs.map
    (fun src => ⟨src, component.seCaption.getD ""⟩))

/-- `image_strip_component`: one image per image module that has an `img`
element, each with its own caption as alt text. -/
def imageStripComponent (component : Fragment) : Block :=
  .imageGroup (component.imageModules.filterMap
    (fun m => m.imgSrc.map (fun src => ⟨src, m.caption.getD ""⟩)))

/-- `quotation_component`. -/
def quotationComponent (component : Fragment) : Block :=
  .quotation (component.seQuote.getD "") (component.seCite.getD "")

/-- `image_component`: exactly one of the `img` and `video` elements must be
present and provides the source; any other combination trips the
`assert False`. -/
def imageComponent (component : Fragment) : Except PyExc ImageBlock :=
  match component.img, component.video with
  | some imgSrc, none => .ok ⟨imgSrc, component.seCaption.getD ""⟩
  | none, some videoSrc => .ok ⟨videoSrc, component.seCaption.getD ""⟩
  | _, _ => .error (.assertionError "Image and video are mutually exclusive")

/-- Modelled from the spec: `formula_component` (referenced by the dispatch
in `hooks.py` but not under `src/`) yields a Formula block with the
fragment's formula text and display flag. -/
def formulaComponent (component : Fragment) : Block :=
  .formula component.formulaText component.formulaDisplayMode

/-- Modelled from the spec: `wrapping_paragraph_component` (referenced by
the dispatch in `hooks.py` but not under `src/`) yields a Paragraph block
with the fragment's text. -/
def wrappingParagraphComponent (component : Fragment) : Block :=
  .paragraph component.wrappingText

/-! ## Per-post classification (`blog/hooks.py`) -/

/-- Python `x or y` on optional strings (`""` and missing are falsy). -/
def pyOrStr (a b : Option String) : Option String :=
  match a with
  | some s => if s = "" then b else some s
  | none => b

/-- Python truthiness of an optional string. -/
def strTruthy : Option String → Bool
  | some s => s ≠ ""
  | none => false

/-- `d.get(key)` when the value is expected to be a string. -/
def oembedGetStr (d : PyDict) (key : String) : Option String :=
  match d.get key with
  | some (.str s) => some s
  | _ => none

/-- The `se-oembed` branch of `use_post.as_blocks`: when
`data.get('url') or data.get('originalUrl')` is truthy, yield a
`MaterialBlock` whose content is the dict
`\x7b'componentType': 'text', 'data': \x7b'text': '[title](url)\n'\x7d\x7d`
built around the Markdown link. -/
def oembedBranch (component : Fragment) : List Block :=
  let data := component.oembedData
  let url := pyOrStr (oembedGetStr data "url") (oembedGetStr data "originalUrl")
  if strTruthy url then
    let u := url.getD ""
    let title := (oembedGetStr data "title").getD "Embedded Content"
    [.material (.dict (.cons "componentType" (.str "text")
      (.cons "data" (.dict (.cons "text"
        (.str ("[" ++ title ++ "](" ++ u ++ ")\n")) .nil)) .nil)))]
  else []

/-- The seventeen discriminant class names handled by `use_post.as_blocks`. -/
def knownClassNames : List String :=
  ["se-sectionTitle", "se-image", "se-imageGroup", "se-imageStrip",
   "se-placesMap", "se-quotation", "se-code", "se-file", "se-horizontalLine",
   "se-table", "se-text", "se-material", "se-sticker", "se-oglink",
   "se-oembed", "se-wrappingParagraph", "se-formula"]

/-- The dispatch of `use_post.as_blocks` on one fragment: the blocks it
yields, or the exception it raises. -/
def asBlocksOne (component : Fragment) : Except PyExc (List Block) :=
  let c := component.className
  if c = "se-sectionTitle" then .ok [sectionTitleComponent component]
  else if c = "se-image" then
    (imageComponent component).map (fun i => [.image i])
  else if c = "se-imageGroup" then .ok [imageGroupComponent component]
  else if c = "se-imageStrip" then .ok [imageStripComponent component]
  else if c = "se-placesMap" then .ok []
  else if c = "se-quotation" then .ok [quotationComponent component]
  else if c = "se-code" then .ok [codeComponent component]
  else if c = "se-file" then .ok [fileComponent component]
  else if c = "se-horizontalLine" then .ok [horizontalLineComponent component]
  else if c = "se-table" then .ok [tableComponent component]
  else if c = "se-text" then .ok (textComponent component)
  else if c = "se-material" then .ok [materialComponent component]
  else if c = "se-sticker" then .ok []
  else if c = "se-oglink" then .ok []
  else if c = "se-oembed" then .ok (oembedBranch component)
  else if c = "se-wrappingParagraph" then
    .ok [wrappingParagraphComponent component]
  else if c = "se-formula" then .ok [formulaComponent component]
  else .error (.valueError ("Unknown component type: " ++ c))

/-- `use_post.as_blocks` over the whole fragment list: the concatenated
blocks, or the first exception raised while the generator is consumed. -/
def asBlocks (components : List Fragment) : Except PyExc (List Block) :=
  match components with
  | [] => .ok []
  | c :: rest => do
    let blocks ← asBlocksOne c
    let blocksRest ← asBlocks rest
    return blocks ++ blocksRest

/-- `_first_image_of_blocks`: the first Image block, the first image of the
first ImageGroup block (`images[0]`, raising `IndexError` on an empty
group), or `None` when no image-bearing block occurs. -/
def firstImageOfBlocks (blocks : List Block) : Except PyExc (Option ImageBlock) :=
  match blocks with
  | [] => .ok none
  | block :: rest =>
    match block with
    | .image img => .ok (some ⟨img.src, img.alt⟩)
    | .imageGroup images =>
      match images with
      | [] => .error (.indexError "list index out of range")
      | first :: _ => .ok (some ⟨first.src, first.alt⟩)
    | _ => firstImageOfBlocks rest

/-! ## Post-list pagination (`blog/hooks.py`, `use_blog`) -/

/-- Modelled from the spec: `PostItem` of `blog/models.py` (not under
`src/`), one entry of the listing's `postList`, identified by its `log_no`. -/
structure PostItem where
  logNo : Nat
deriving DecidableEq, Repr

/-- Modelled from the spec: `PostListResponse` of `blog/models.py` (not
under `src/`): `totalCount`, `countPerPage` and `postList` of one listing
page. -/
structure PostListResponse where
  totalCount : Nat
  countPerPage : Nat
  postList : List PostItem

/-- `_fetch_page_safe`: the page's posts, or an empty list when the fetch
raised anything. -/
def fetchPageSafe (pageFetch : Nat → Except PyExc PostListResponse)
    (pageNumber : Nat) : List PostItem :=
  match pageFetch pageNumber with
  | .ok response => response.postList
  | .error _ => []

/-- Python `math.ceil(totalCount / countPerPage)` on naturals. -/
def ceilDiv (totalCount countPerPage : Nat) : Nat :=
  (totalCount + countPerPage - 1) / countPerPage

/-- `use_blog.posts` after the first page's response has been obtained:
no posts when the total is zero, just the first page when one page suffices,
otherwise pages `2..totalPages` fetched safely through the worker pool (of
size 8, completing in the order `completion`) and concatenated after the
first page's posts. -/
def blogPosts (firstResponse : PostListResponse)
    (pageFetch : Nat → Except PyExc PostListResponse)
    (completion : List Nat) : List PostItem :=
  let totalCount := firstResponse.totalCount
  let countPerPage := firstResponse.countPerPage
  if totalCount = 0 then []
  else
    let totalPages := ceilDiv totalCount countPerPage
    if totalPages = 1 then firstResponse.postList
    else
      let remainingPages := useMap 8 completion (fetchPageSafe pageFetch)
        (List.range' 2 (totalPages - 1))
      firstResponse.postList ++ remainingPages.flatten

/-! ## The per-post crawl loop (`crawl.py`)

One post's processing inside the `try` of `crawl` is abstracted by its
outcome: the Markdown written, or the exception raised. The `except` clauses
skip the post for a `ValueError` whose message holds
`"Unknown component type"`, for an `OSError` whose message holds
`"Too many open files"`, and for any other exception; the two remaining
`raise` statements abort the whole crawl. -/

/-- `crawl`'s loop over the posts' processing outcomes: the Markdown texts
of the posts that were saved, or the exception that aborted the crawl. -/
def crawlLoop (outcomes : List (Except PyExc String)) :
    Except PyExc (List String) :=
  match outcomes with
  | [] => .ok []
  | outcome :: rest =>
    match outcome with
    | .ok markdown => (crawlLoop rest).map (fun saved => markdown :: saved)
    | .error (.valueError msg) =>
      if strContains msg "Unknown component type" then crawlLoop rest
      else .error (.valueError msg)
    | .error (.osError msg) =>
      if strContains msg "Too many open files" then crawlLoop rest
      else .error (.osError msg)
    | .error _ => crawlLoop rest

/-! ## Theorems

First the ordering guarantee of the worker-pool model: whatever order the
items complete in, the assembled result is the in-order map. -/

/-- Looking up a submission index among the completed items yields that
item's result whenever the index completed, regardless of completion
order. -/
theorem lookup_poolCompleted (f : α → β) (xs : List α) (i : Nat) :
    ∀ completion : List Nat,
      (poolCompleted f xs completion).lookup i =
        if i ∈ completion then (xs[i]?).map f else none := by
  intro completion
  induction completion with
  | nil => simp [poolCompleted]
  | cons j rest ih =>
    by_cases hij : i = j
    · subst hij
      cases hj : xs[i]? with
      | none => simp [poolCompleted, hj, ih]
      | some x => simp [poolCompleted, hj, List.lookup]
    · cases hj : xs[j]? with
      | none => simp [poolCompleted, hj, ih, List.mem_cons, hij]
      | some x =>
        have hb : (i == j) = false := by simp [hij]
        simp [poolCompleted, hj, List.lookup, hb, ih, List.mem_cons, hij]

/-- Reading a list off by index over `range`. -/
theorem filterMap_getElem_range (f : α → β) :
    ∀ xs : List α,
      (List.range xs.length).filterMap (fun i => (xs[i]?).map f) = xs.map f := by
  intro xs
  induction xs with
  | nil => simp
  | cons x xs ih =>
    rw [List.length_cons, List.range_succ_eq_map, List.filterMap_cons]
    simp only [List.getElem?_cons_zero, Option.map_some', List.filterMap_map]
    rw [List.map_cons]
    congr 1
    rw [List.filterMap_congr (g := fun i => (xs[i]?).map f) (fun i _ => by
      simp [Function.comp])]
    exact ih

/-- The ordering guarantee of the pool: for every completion order that is a
permutation of the submission indices, `use_map` returns exactly the
in-order map, whatever the pool size. -/
theorem useMap_eq_map (numWorkers : Nat) (f : α → β) (xs : List α)
    (completion : List Nat) (hperm : completion.Perm (List.range xs.length)) :
    useMap numWorkers completion f xs = xs.map f := by
  unfold useMap
  rw [List.filterMap_congr (g := fun i => (xs[i]?).map f) ?_]
  · exact filterMap_getElem_range f xs
  · intro i hi
    rw [lookup_poolCompleted, if_pos (hperm.mem_iff.mpr hi)]

/-- The per-block renderer ignores the worker count of its context. -/
theorem blockAsMarkdown_num_workers (block : Block) (n m : Nat)
    (imageContext : Option ImageContext) :
    blockAsMarkdown block ⟨n, imageContext⟩ = blockAsMarkdown block ⟨m, imageContext⟩ := by
  cases block <;> rfl

/-- The front-matter serializer ignores the worker count of its context. -/
theorem frontMatterAsYaml_num_workers (frontMatter : FrontMatter) (n m : Nat)
    (imageContext : Option ImageContext) :
    frontMatterAsYaml frontMatter ⟨n, imageContext⟩ =
      frontMatterAsYaml frontMatter ⟨m, imageContext⟩ := by
  cases frontMatter with
  | mk imageUrl rest => cases imageUrl <;> rfl

/-- C1: for every block sequence and front matter, rendering with a pool of
1 worker and rendering with a pool of 8 workers produce the same Markdown
result, whatever completion orders the two pools realize: the rendered
fragments are assembled in the original block order regardless of pool
size. -/
theorem blocksAsMarkdown_pool_size_irrelevant
    (blocks : List Block) (frontMatter : Option FrontMatter)
    (imageContext : Option ImageContext) (completionA completionB : List Nat)
    (hA : completionA.Perm (List.range blocks.length))
    (hB : completionB.Perm (List.range blocks.length)) :
    blocksAsMarkdown blocks frontMatter "" completionA ⟨1, imageContext⟩ =
      blocksAsMarkdown blocks frontMatter "" completionB ⟨8, imageContext⟩ := by
  cases frontMatter with
  | none =>
    unfold blocksAsMarkdown
    dsimp only
    rw [useMap_eq_map 1 _ _ _ hA, useMap_eq_map 8 _ _ _ hB,
      show (fun b => blockAsMarkdown b ⟨1, imageContext⟩) =
          (fun b => blockAsMarkdown b ⟨8, imageContext⟩) from
        funext fun b => blockAsMarkdown_num_workers b 1 8 imageContext]
  | some fm =>
    unfold blocksAsMarkdown
    dsimp only
    rw [useMap_eq_map 1 _ _ _ hA, useMap_eq_map 8 _ _ _ hB,
      show (fun b => blockAsMarkdown b ⟨1, imageContext⟩) =
          (fun b => blockAsMarkdown b ⟨8, imageContext⟩) from
        funext fun b => blockAsMarkdown_num_workers b 1 8 imageContext,
      frontMatterAsYaml_num_workers fm 1 8 imageContext]

/-- Witness for C1 at a concrete two-block document and two distinct
completion orders. -/
theorem blocksAsMarkdown_pool_size_irrelevant_witness :
    blocksAsMarkdown [Block.paragraph "hello", Block.horizontalLine] none ""
        [1, 0] ⟨1, none⟩ =
      blocksAsMarkdown [Block.paragraph "hello", Block.horizontalLine] none ""
        [0, 1] ⟨8, none⟩ :=
  blocksAsMarkdown_pool_size_irrelevant _ none none [1, 0] [0, 1]
    (by decide) (by decide)

/-- C5: with the assets directory in place, the fetch-local resolver never
raises: it always returns an `ok` result; on a download failure or a write
failure it returns the original source string unchanged (not the
cdn-normalized URL), and only when both the download and the write succeed
does it return the configured path prefix concatenated with the local
filename (the decoded last path segment of the normalized URL). -/
theorem fetchImageProcessor_never_raises
    (imageSrcPrefix : String) (world : FetchWorld) (src : String) :
    (∃ out, fetchImageProcessor true imageSrcPrefix world src = .ok out)
    ∧ (∀ e, world.fetch (originalImageUrl src) = .error e →
        fetchImageProcessor true imageSrcPrefix world src = .ok src)
    ∧ (∀ body e, world.fetch (originalImageUrl src) = .ok body →
        world.write (unquotePlus (lastPathSegment (originalImageUrl src))) body =
          .error e →
        fetchImageProcessor true imageSrcPrefix world src = .ok src)
    ∧ (∀ body, world.fetch (originalImageUrl src) = .ok body →
        world.write (unquotePlus (lastPathSegment (originalImageUrl src))) body =
          .ok () →
        fetchImageProcessor true imageSrcPrefix world src =
          .ok (imageSrcPrefix ++ unquotePlus (lastPathSegment (originalImageUrl src)))) := by
  refine ⟨?_, ?_, ?_, ?_⟩
  · unfold fetchImageProcessor
    cases hf : world.fetch (originalImageUrl src) with
    | error e => exact ⟨src, by simp [hf]⟩
    | ok body =>
      cases hw : world.write (unquotePlus (lastPathSegment (originalImageUrl src))) body with
      | error e => exact ⟨src, by simp [hf, hw]⟩
      | ok u =>
        cases u
        exact ⟨imageSrcPrefix ++ unquotePlus (lastPathSegment (originalImageUrl src)),
          by simp [hf, hw]⟩
  · intro e hf
    simp [fetchImageProcessor, hf]
  · intro body e hf hw
    simp [fetchImageProcessor, hf, hw]
  · intro body hf hw
    simp [fetchImageProcessor, hf, hw]

/-- Witness for C5: a resolver world whose download always times out makes
the resolver return the original source (query string included) untouched. -/
theorem fetchImageProcessor_never_raises_witness :
    fetchImageProcessor true "assets/post/"
        ⟨fun _ => .error "ConnectTimeout", fun _ _ => .ok ()⟩
        "https://postfiles.pstatic.net/a/img.png?type=w966" =
      .ok "https://postfiles.pstatic.net/a/img.png?type=w966" :=
  (fetchImageProcessor_never_raises "assets/post/"
    ⟨fun _ => .error "ConnectTimeout", fun _ _ => .ok ()⟩
    "https://postfiles.pstatic.net/a/img.png?type=w966").2.1 "ConnectTimeout" rfl

/-- C6: with `total_count = 65` and `count_per_page = 30` on the first
page's response, post-list aggregation fetches pages 2 and 3 (3 pages in
all) and returns page 1's posts followed by page 2's and page 3's in page
order, whatever order the pool completes them in; a failing page contributes
an empty list (`_fetch_page_safe` catches every exception, so the
aggregation itself never raises), and 65 items result when all three pages
succeed with 30, 30 and 5 posts. -/
theorem blogPosts_pagination
    (firstResponse : PostListResponse)
    (pageFetch : Nat → Except PyExc PostListResponse)
    (completion : List Nat)
    (htotal : firstResponse.totalCount = 65)
    (hper : firstResponse.countPerPage = 30)
    (hperm : completion.Perm (List.range 2)) :
    blogPosts firstResponse pageFetch completion =
      firstResponse.postList ++ fetchPageSafe pageFetch 2 ++ fetchPageSafe pageFetch 3
    ∧ (∀ e, pageFetch 2 = .error e →
        blogPosts firstResponse pageFetch completion =
          firstResponse.postList ++ ([] : List PostItem) ++ fetchPageSafe pageFetch 3)
    ∧ (∀ response2 response3,
        pageFetch 2 = .ok response2 → pageFetch 3 = .ok response3 →
        firstResponse.postList.length = 30 → response2.postList.length = 30 →
        response3.postList.length = 5 →
        (blogPosts firstResponse pageFetch completion).length = 65) := by
  have hmain : blogPosts firstResponse pageFetch completion =
      firstResponse.postList ++ fetchPageSafe pageFetch 2 ++ fetchPageSafe pageFetch 3 := by
    unfold blogPosts
    rw [htotal, hper]
    dsimp only
    rw [if_neg (by decide : ¬(65 = 0)), show ceilDiv 65 30 = 3 from by decide,
      if_neg (by decide : ¬(3 = 1)),
      show List.range' 2 (3 - 1) = [2, 3] from by decide,
      useMap_eq_map 8 _ _ _ (by simpa using hperm)]
    simp [List.append_assoc]
  refine ⟨hmain, ?_, ?_⟩
  · intro e hf
    rw [hmain]
    simp [fetchPageSafe, hf]
  · intro response2 response3 h2 h3 hl1 hl2 hl3
    rw [hmain]
    simp [fetchPageSafe, h2, h3, hl1, hl2, hl3]

/-- Witness for C6: a concrete 65-post listing split 30/30/5, fetched with
the two remaining pages completing out of order. -/
theorem blogPosts_pagination_witness :
    blogPosts ⟨65, 30, List.replicate 30 ⟨100⟩⟩
        (fun pageNumber =>
          if pageNumber = 2 then .ok ⟨65, 30, List.replicate 30 ⟨200⟩⟩
          else .ok ⟨65, 30, List.replicate 5 ⟨300⟩⟩)
        [1, 0] =
      List.replicate 30 (⟨100⟩ : PostItem) ++ List.replicate 30 ⟨200⟩ ++
        List.replicate 5 ⟨300⟩ ∧
    (blogPosts ⟨65, 30, List.replicate 30 ⟨100⟩⟩
        (fun pageNumber =>
          if pageNumber = 2 then .ok ⟨65, 30, List.replicate 30 ⟨200⟩⟩
          else .ok ⟨65, 30, List.replicate 5 ⟨300⟩⟩)
        [1, 0]).length = 65 := by
  have h := blogPosts_pagination ⟨65, 30, List.replicate 30 ⟨100⟩⟩
    (fun pageNumber =>
      if pageNumber = 2 then .ok ⟨65, 30, List.replicate 30 ⟨200⟩⟩
      else .ok ⟨65, 30, List.replicate 5 ⟨300⟩⟩)
    [1, 0] rfl rfl (by decide)
  exact ⟨by rw [h.1]; rfl, h.2.2 _ _ rfl rfl (by decide) (by decide) (by decide)⟩

/-- A fragment with no observed sub-elements, for concrete instances. -/
def emptyFragment : Fragment :=
  ⟨"", "", [], none, none, none, none, none, [], none, [], none, none, none,
    none, .nil, "", false, ""⟩

/-- Counterexample to C2 as stated: on the unknown discriminant `"se-foo"`
the classifier raises a `ValueError` — an exception whose class name is
`"ValueError"`, not `"UnknownComponentType"` (no such class exists in the
code base); only its message names the discriminant. -/
theorem unknown_component_error_class_counterexample :
    asBlocksOne { emptyFragment with className := "se-foo" } =
      .error (.valueError "Unknown component type: se-foo")
    ∧ pyExcClassName (.valueError "Unknown component type: se-foo") = "ValueError"
    ∧ "ValueError" ≠ "UnknownComponentType" :=
  ⟨rfl, rfl, by decide⟩

/-- C2 (amended): a fragment whose discriminant is outside the seventeen
known class names makes classification raise a `ValueError` whose message
names that discriminant, and the crawl loop catches any `ValueError` whose
message holds `"Unknown component type"`, skipping exactly that post while
the remaining posts are processed as before. -/
theorem unknown_component_skips_only_that_post :
    (∀ component : Fragment, component.className ∉ knownClassNames →
      asBlocksOne component =
        .error (.valueError ("Unknown component type: " ++ component.className)))
    ∧ (∀ (before after : List (Except PyExc String)) (msg : String),
        strContains msg "Unknown component type" = true →
        crawlLoop (before ++ .error (.valueError msg) :: after) =
          crawlLoop (before ++ after)) := by
  constructor
  · intro component h
    simp only [knownClassNames, List.mem_cons, List.not_mem_nil, or_false,
      not_or] at h
    obtain ⟨h1, h2, h3, h4, h5, h6, h7, h8, h9, h10, h11, h12, h13, h14, h15,
      h16, h17⟩ := h
    simp [asBlocksOne, h1, h2, h3, h4, h5, h6, h7, h8, h9, h10, h11, h12, h13,
      h14, h15, h16, h17]
  · intro before after msg hmsg
    induction before with
    | nil => simp [crawlLoop, hmsg]
    | cons outcome rest ih =>
      cases outcome with
      | ok markdown => simp [crawlLoop, ih]
      | error e =>
        cases e with
        | valueError m => simp only [List.cons_append, crawlLoop]; split <;> simp [ih]
        | osError m => simp only [List.cons_append, crawlLoop]; split <;> simp [ih]
        | assertionError m => simp [crawlLoop, ih]
        | indexError m => simp [crawlLoop, ih]
        | requestException m => simp [crawlLoop, ih]
        | otherError c m => simp [crawlLoop, ih]

/-- Witness for C2 at the concrete discriminant `"se-bar"` and a one-post
crawl whose single post fails with the unknown-component error. -/
theorem unknown_component_skips_only_that_post_witness :
    asBlocksOne { emptyFragment with className := "se-bar" } =
      .error (.valueError ("Unknown component type: " ++ "se-bar"))
    ∧ crawlLoop [.error (.valueError "Unknown component type: se-bar")] =
        crawlLoop [] :=
  ⟨unknown_component_skips_only_that_post.1 _ (by decide),
    unknown_component_skips_only_that_post.2 [] []
      "Unknown component type: se-bar" (by decide)⟩

/-- The full filename carried by a File block. -/
def fileBlockFilename : Block → Option String
  | .file filename _ _ => some filename
  | _ => none

/-- Counterexample to C3 as stated: a file fragment with an extension
element (text `".pdf"`) but no name element is classified with full filename
`"unknown"`, not `".pdf"` — the extension alone is never used. -/
theorem file_extension_only_counterexample :
    fileComponent { emptyFragment with
      className := "se-file", seFileExtension := some ".pdf" } =
      Block.file "unknown" "" "pdf"
    ∧ "unknown" ≠ ".pdf" :=
  ⟨rfl, by decide⟩

/-- C3 (amended): the full filename is `name+extension` when both the name
and the extension are present with non-empty text; it is the name when the
name is present with non-empty text and the extension is absent or empty;
and it is the literal `"unknown"` whenever the name is absent or empty,
regardless of the extension. -/
theorem fileComponent_full_filename (component : Fragment) :
    ((component.seFileName.getD "") ≠ "" → (component.seFileExtension.getD "") ≠ "" →
      fileBlockFilename (fileComponent component) =
        some ((component.seFileName.getD "") ++ (component.seFileExtension.getD "")))
    ∧ ((component.seFileName.getD "") ≠ "" → (component.seFileExtension.getD "") = "" →
      fileBlockFilename (fileComponent component) =
        some (component.seFileName.getD ""))
    ∧ ((component.seFileName.getD "") = "" →
      fileBlockFilename (fileComponent component) = some "unknown") := by
  refine ⟨?_, ?_, ?_⟩
  · intro hn he
    simp [fileComponent, fileBlockFilename, hn, he]
  · intro hn he
    simp [fileComponent, fileBlockFilename, hn, he]
  · intro hn
    simp [fileComponent, fileBlockFilename, hn]

/-- Witness for C3 on a fragment carrying both a name and an extension. -/
theorem fileComponent_full_filename_witness :
    fileBlockFilename (fileComponent { emptyFragment with
      className := "se-file", seFileName := some "report", seFileExtension := some ".pdf" }) =
      some ("report" ++ ".pdf") :=
  (fileComponent_full_filename _).1 (by decide) (by decide)

/-- C4: evaluation at the failing input. An oembed fragment with data
`\x7b'url': 'https://example.com', 'title': 'T'\x7d` is classified as a
Material block whose content is not the Markdown link string
`"[T](https://example.com)"` but the whole intermediate dict
`\x7b'componentType': 'text', 'data': \x7b'text': '[T](https://example.com)\n'\x7d\x7d`
(`MaterialBlock.content` is annotated `str`, yet the dict is passed), so the
renderer emits the dict's repr after `"> [Material] "` instead of the
link. -/
theorem oembed_material_content_is_dict_not_link :
    asBlocksOne { emptyFragment with
      className := "se-oembed",
      oembedData := .cons "url" (.str "https://example.com")
        (.cons "title" (.str "T") .nil) } =
      .ok [Block.material (.dict (.cons "componentType" (.str "text")
        (.cons "data" (.dict (.cons "text"
          (.str "[T](https://example.com)\n") .nil)) .nil)))]
    ∧ blockAsMarkdown
        (Block.material (.dict (.cons "componentType" (.str "text")
          (.cons "data" (.dict (.cons "text"
            (.str "[T](https://example.com)\n") .nil)) .nil)))) ⟨1, none⟩ =
      .ok ("> [Material] \x7b'componentType': 'text', 'data': \x7b'text': '[T](https://example.com)\\n'\x7d\x7d\n\n")
    ∧ ("> [Material] \x7b'componentType': 'text', 'data': \x7b'text': '[T](https://example.com)\\n'\x7d\x7d\n\n" : String) ≠
        "> [Material] [T](https://example.com)\n\n" :=
  ⟨rfl, rfl, by decide⟩

/-- C7: a Table block with non-empty headers renders each data row padded
with empty cells up to the header count and truncated to the header count —
on headers `["A","B"]` the row `["x"]` renders as `"| x |  |"` and the row
`["x","y","z"]` as `"| x | y |"` — and a Table block with empty headers and
empty rows renders to the empty string. -/
theorem table_rendering_pads_and_truncates :
    (∀ context : MarkdownRenderContext,
      blockAsMarkdown (.table ["A", "B"] [["x"], ["x", "y", "z"]]) context =
        .ok "| A | B |\n| --- | --- |\n| x |  |\n| x | y |\n\n")
    ∧ (∀ (headers : List String) (row : List String),
        (paddedRow headers.length row).length = headers.length
        ∧ ∀ i, i < headers.length →
            (paddedRow headers.length row).getD i "" =
              if i < row.length then row.getD i "" else "")
    ∧ (∀ context : MarkdownRenderContext,
        blockAsMarkdown (.table [] []) context = .ok "") := by
  refine ⟨fun context => rfl, ?_, fun context => rfl⟩
  intro headers row
  constructor
  · simp only [paddedRow, List.length_take, List.length_append,
      List.length_replicate]
    omega
  · intro i hi
    simp only [paddedRow, List.getD_eq_getElem?_getD]
    rw [List.getElem?_take_of_lt hi]
    by_cases hr : i < row.length
    · simp [List.getElem?_append, hr]
    · rw [List.getElem?_append_right (by omega), List.getElem?_replicate,
        if_pos (by omega)]
      simp [hr]

/-- Witness for C7: the concrete table rendered under the default context,
and the pad/truncate property read off at index 1 of the padded short row. -/
theorem table_rendering_pads_and_truncates_witness :
    blockAsMarkdown (.table ["A", "B"] [["x"], ["x", "y", "z"]]) ⟨1, none⟩ =
      .ok "| A | B |\n| --- | --- |\n| x |  |\n| x | y |\n\n"
    ∧ (paddedRow (["A", "B"] : List String).length ["x"]).getD 1 "" =
        (if 1 < (["x"] : List String).length then (["x"] : List String).getD 1 "" else "") :=
  ⟨table_rendering_pads_and_truncates.1 ⟨1, none⟩,
    (table_rendering_pads_and_truncates.2.1 ["A", "B"] ["x"]).2 1 (by decide)⟩

/-- Counterexample to C8 as stated: the whitespace-only paragraph `" "` does
not render to the empty string — only the exact texts `""` and `"\n"` hit
the empty pattern; `" "` falls through to the strip-and-append case and
renders as `"\n\n"`. -/
theorem paragraph_whitespace_counterexample :
    blockAsMarkdown (.paragraph " ") ⟨1, none⟩ = .ok "\n\n"
    ∧ "\n\n" ≠ "" :=
  ⟨rfl, by decide⟩

/-- C8 (amended): a Paragraph block renders to the empty string exactly when
its text is `""` or `"\n"`; any other text — whitespace-only strings such as
`" "` included — renders as the stripped text followed by two newlines. -/
theorem paragraph_rendering (context : MarkdownRenderContext) (text : String) :
    ((text = "" ∨ text = "\n") →
      blockAsMarkdown (.paragraph text) context = .ok "")
    ∧ (¬(text = "" ∨ text = "\n") →
      blockAsMarkdown (.paragraph text) context = .ok (pyStrip text ++ "\n\n")) := by
  constructor
  · intro h
    simp [blockAsMarkdown, h]
  · intro h
    simp [blockAsMarkdown, h]

/-- Witness for C8 on the text `"hello "` under the default context. -/
theorem paragraph_rendering_witness :
    blockAsMarkdown (.paragraph "hello ") ⟨1, none⟩ =
      .ok (pyStrip "hello " ++ "\n\n") :=
  (paragraph_rendering ⟨1, none⟩ "hello ").2 (by decide)

/-- C9: classifying a plain-image fragment returns an Image block sourced
from the image tag when only the image tag is present, from the video tag
when only the video tag is present, and fails with the `AssertionError` of
the `assert False` (a defect, not a recoverable error value) when both tags
or neither tag are present. -/
theorem imageComponent_mutual_exclusion (component : Fragment) :
    (∀ src, component.img = some src → component.video = none →
      imageComponent component = .ok ⟨src, component.seCaption.getD ""⟩)
    ∧ (∀ src, component.img = none → component.video = some src →
      imageComponent component = .ok ⟨src, component.seCaption.getD ""⟩)
    ∧ (component.img = none → component.video = none →
      imageComponent component =
        .error (.assertionError "Image and video are mutually exclusive"))
    ∧ (∀ srcA srcB, component.img = some srcA → component.video = some srcB →
      imageComponent component =
        .error (.assertionError "Image and video are mutually exclusive")) := by
  refine ⟨?_, ?_, ?_, ?_⟩ <;> intros <;> simp [imageComponent, *]

/-- Witness for C9: an image-only fragment and a both-tags fragment. -/
theorem imageComponent_mutual_exclusion_witness :
    imageComponent { emptyFragment with
      className := "se-image", img := some "https://x/img.png" } =
      .ok ⟨"https://x/img.png", ""⟩
    ∧ imageComponent { emptyFragment with
      className := "se-image", img := some "https://x/img.png",
      video := some "https://x/v.mp4" } =
      .error (.assertionError "Image and video are mutually exclusive") :=
  ⟨(imageComponent_mutual_exclusion _).1 "https://x/img.png" rfl rfl,
    (imageComponent_mutual_exclusion _).2.2.2 "https://x/img.png"
      "https://x/v.mp4" rfl rfl⟩

/-- Whether a block is an Image or ImageGroup block. -/
def isImageBearing : Block → Bool
  | .image _ => true
  | .imageGroup _ => true
  | _ => false

/-- The preview image as the claim describes it: the first Image block, an
ImageGroup contributing the first image of its list. -/
def specFirstImage (blocks : List Block) : Option ImageBlock :=
  blocks.findSome? (fun block =>
    match block with
    | .image img => some img
    | .imageGroup images => images.head?
    | _ => none)

/-- C10: preview-image derivation returns `None` on a sequence with no
image-bearing block and the first image (first of a group) otherwise, but
only under the precondition that every ImageGroup it can reach is
non-empty: on a sequence whose first image-bearing block is an empty
ImageGroup, the `images[0]` access raises `IndexError` instead of returning
`None` or skipping the block. -/
theorem firstImageOfBlocks_needs_nonempty_groups :
    (∀ blocks : List Block, (∀ b ∈ blocks, isImageBearing b = false) →
      firstImageOfBlocks blocks = .ok none)
    ∧ (∀ blocks : List Block,
        (∀ images, Block.imageGroup images ∈ blocks → images ≠ []) →
        firstImageOfBlocks blocks = .ok (specFirstImage blocks))
    ∧ firstImageOfBlocks [Block.imageGroup []] =
        .error (.indexError "list index out of range") := by
  refine ⟨?_, ?_, rfl⟩
  · intro blocks h
    induction blocks with
    | nil => rfl
    | cons b rest ih =>
      have hb := h b (List.mem_cons_self b rest)
      have hrest := fun x hx => h x (List.mem_cons_of_mem b hx)
      cases b <;> simp_all [firstImageOfBlocks, isImageBearing]
  · intro blocks h
    induction blocks with
    | nil => rfl
    | cons b rest ih =>
      have hrest := fun images him =>
        h images (List.mem_cons_of_mem b him)
      cases b with
      | imageGroup images =>
        have hne := h images (List.mem_cons_self _ rest)
        cases images with
        | nil => exact absurd rfl hne
        | cons first others =>
          simp [firstImageOfBlocks, specFirstImage]
      | image img => simp [firstImageOfBlocks, specFirstImage]
      | sectionTitle text => simpa [firstImageOfBlocks, specFirstImage] using ih hrest
      | paragraph text => simpa [firstImageOfBlocks, specFirstImage] using ih hrest
      | quotation text cite => simpa [firstImageOfBlocks, specFirstImage] using ih hrest
      | code code language => simpa [firstImageOfBlocks, specFirstImage] using ih hrest
      | file filename fileUrl extension =>
        simpa [firstImageOfBlocks, specFirstImage] using ih hrest
      | horizontalLine => simpa [firstImageOfBlocks, specFirstImage] using ih hrest
      | table headers rows => simpa [firstImageOfBlocks, specFirstImage] using ih hrest
      | material content => simpa [firstImageOfBlocks, specFirstImage] using ih hrest
      | formula formula displayMode =>
        simpa [firstImageOfBlocks, specFirstImage] using ih hrest

/-- Witness for C10: no image-bearing block yields `None`; a paragraph
followed by an image yields that image. -/
theorem firstImageOfBlocks_needs_nonempty_groups_witness :
    firstImageOfBlocks [Block.paragraph "x", Block.horizontalLine] = .ok none
    ∧ firstImageOfBlocks [Block.paragraph "x", Block.image ⟨"s", "a"⟩] =
        .ok (specFirstImage [Block.paragraph "x", Block.image ⟨"s", "a"⟩]) :=
  ⟨firstImageOfBlocks_needs_nonempty_groups.1 _
      (by intro b hb; simp only [List.mem_cons, List.not_mem_nil, or_false] at hb
          rcases hb with rfl | rfl <;> rfl),
    firstImageOfBlocks_needs_nonempty_groups.2.1 _ (by intro images him; simp at him)⟩

end NaverBlogMd
